import Mathlib

/-!
Shallow embedding of `src/tools/manager/whids-man.go` (package main of the
WHIDS manager tool): certificate generation (`generateCert`, `publicKey`,
`pemBlockForKey`), the `main` CLI paths, and the run/shutdown lifecycle.

Effectful Go standard-library calls (crypto randomness, the clock, file
opening, PEM encoding) are modelled by explicit oracle inputs collected in
`CertGenEnv`; the file system is explicit state (`FS`) threaded through
`generateCert` together with an ordered event trace.
-/

namespace Whids

/-- Go `net.IP`: a byte slice; here a list of byte values. -/
abbrev IPAddr : Type := List Nat

/-- Model of `rsa.PrivateKey` as produced by `rsa.GenerateKey(rand.Reader, bits)`:
the bit size requested plus the entropy that produced the key (standing for the
actual key material). -/
structure RSAKey where
  bits : Nat
  seed : Nat
deriving DecidableEq

/-- Model of `ecdsa.PrivateKey` (never created by this program, but required to
embed the type switches in `publicKey` and `pemBlockForKey`). -/
structure ECKey where
  seed : Nat
deriving DecidableEq

/-- The dynamic type of the `priv interface\x7b\x7d` value: an RSA key, an ECDSA key,
or any other value (the `default` arm of the Go type switches). -/
inductive Priv where
  | rsa (k : RSAKey)
  | ecdsa (k : ECKey)
  | other
deriving DecidableEq

/-- Model of a public key (`*rsa.PublicKey` / `*ecdsa.PublicKey`). -/
inductive PubKey where
  | rsa (bits seed : Nat)
  | ec (seed : Nat)
deriving DecidableEq

/-- go source, `publicKey`: type switch returning `&k.PublicKey` for RSA and
ECDSA keys and `nil` (here `none`) in the default arm. -/
def publicKey : Priv → Option PubKey
  | .rsa k => some (.rsa k.bits k.seed)
  | .ecdsa k => some (.ec k.seed)
  | .other => none

/-- Go `x509.ExtKeyUsage` values (only `ServerAuth` is used by the source). -/
inductive ExtKeyUsage where
  | serverAuth
  | clientAuth
  | any
deriving DecidableEq

/-- Go `x509.KeyUsageDigitalSignature = 1 << 0`. -/
def kuDigitalSignature : Nat := 1

/-- Go `x509.KeyUsageContentCommitment = 1 << 1`. -/
def kuContentCommitment : Nat := 2

/-- Go `x509.KeyUsageKeyEncipherment = 1 << 2`. -/
def kuKeyEncipherment : Nat := 4

/-- The fields of the `x509.Certificate` template value built by `generateCert`
(a template has no issuer of its own; the issuer is taken from the parent by
`x509.CreateCertificate`). Times are nanoseconds. -/
structure CertTemplate where
  serialNumber : Nat
  subjectOrg : List String
  notBefore : Int
  notAfter : Int
  keyUsage : Nat
  extKeyUsage : List ExtKeyUsage
  basicConstraintsValid : Bool
  ipAddresses : List IPAddr
  dnsNames : List String
deriving DecidableEq

/-- The semantic content of the DER certificate produced by
`x509.CreateCertificate`: the template fields plus the issuer (copied from the
parent certificate), the embedded public key, and the signing key. -/
structure Certificate where
  serialNumber : Nat
  subjectOrg : List String
  issuerOrg : List String
  notBefore : Int
  notAfter : Int
  keyUsage : Nat
  extKeyUsage : List ExtKeyUsage
  basicConstraintsValid : Bool
  ipAddresses : List IPAddr
  dnsNames : List String
  pub : Option PubKey
  signedWith : Priv
deriving DecidableEq

/-- Model of `x509.CreateCertificate(rand.Reader, tmpl, parent, pub, priv)`:
on success, a certificate carrying the template fields, with issuer equal to
the parent template subject, signed with `priv`. The `ok` oracle models the
possibility of failure of the library call. -/
def createCertificate (ok : Bool) (tmpl parent : CertTemplate) (pub : Option PubKey)
    (priv : Priv) : Option Certificate :=
  if ok then
    some { serialNumber := tmpl.serialNumber
           subjectOrg := tmpl.subjectOrg
           issuerOrg := parent.subjectOrg
           notBefore := tmpl.notBefore
           notAfter := tmpl.notAfter
           keyUsage := tmpl.keyUsage
           extKeyUsage := tmpl.extKeyUsage
           basicConstraintsValid := tmpl.basicConstraintsValid
           ipAddresses := tmpl.ipAddresses
           dnsNames := tmpl.dnsNames
           pub := pub
           signedWith := priv }
  else none

/-- The payload of a PEM block: DER bytes of a certificate, a PKCS#1 RSA key, or
a SEC1 EC key. -/
inductive PemPayload where
  | certDer (c : Certificate)
  | pkcs1 (k : RSAKey)
  | sec1 (k : ECKey)
deriving DecidableEq

/-- Go `pem.Block`: a type label and the payload bytes. -/
structure PemBlock where
  type : String
  bytes : PemPayload
deriving DecidableEq

/-- Outcome of `pemBlockForKey`, which may also terminate the process with
`os.Exit(2)` (EC marshal failure) or return a nil pointer (default arm). -/
inductive PemBlockResult where
  | block (b : PemBlock)
  | exitCode (n : Nat)
  | nilBlock
deriving DecidableEq

/-- go source, `pemBlockForKey`: RSA keys yield an `RSA PRIVATE KEY` PKCS#1
block; ECDSA keys yield an `EC PRIVATE KEY` SEC1 block unless marshaling fails,
in which case the process exits with code 2; any other key yields nil.
`ecMarshalOk` is the oracle for `x509.MarshalECPrivateKey`. -/
def pemBlockForKey (ecMarshalOk : Bool) : Priv → PemBlockResult
  | .rsa k => .block ⟨"RSA PRIVATE KEY", .pkcs1 k⟩
  | .ecdsa k =>
      if ecMarshalOk then .block ⟨"EC PRIVATE KEY", .sec1 k⟩ else .exitCode 2
  | .other => .nilBlock

/-- Contents of an open/written file in the model. -/
inductive FileContent where
  | empty
  | pemData (b : PemBlock)
  | corrupt
deriving DecidableEq

/-- A file: its creation mode and its content. -/
structure FileInfo where
  mode : Nat
  content : FileContent
deriving DecidableEq

/-- Observable file-system events, in program order. -/
inductive FsEvent where
  | openWrite (name : String) (mode : Nat)
  | encodePem (name : String) (ok : Bool)
  | closeFile (name : String)
deriving DecidableEq

/-- The file-system state: named files plus the ordered event trace. -/
structure FS where
  files : List (String × FileInfo)
  events : List FsEvent
deriving DecidableEq

/-- Look a file up by name. -/
def FS.lookup (fs : FS) (n : String) : Option FileInfo :=
  (fs.files.find? (fun p => p.1 = n)).map (fun p => p.2)

/-- Replace (or add) a file. -/
def FS.setFile (fs : FS) (n : String) (fi : FileInfo) : FS :=
  { fs with files := (n, fi) :: fs.files.filter (fun p => p.1 ≠ n) }

/-- Model of `os.OpenFile(name, os.O_WRONLY|os.O_CREATE|os.O_TRUNC, mode)`:
on success the file exists truncated to empty with the given mode and an
`openWrite` event is recorded; on failure (`ok = false`) the state is
unchanged and `none` is returned. -/
def openFileTrunc (fs : FS) (ok : Bool) (name : String) (mode : Nat) : Option FS :=
  if ok then
    some { (fs.setFile name ⟨mode, .empty⟩) with
           events := fs.events ++ [.openWrite name mode] }
  else none

/-- Model of `pem.Encode(f, block)`: on success the block becomes the file
content; on write failure the file is left corrupt. Either way an `encodePem`
event is recorded and the call returns no value to the caller (the Go source
discards the returned error). -/
def pemEncodeFile (fs : FS) (ok : Bool) (name : String) (b : PemBlock) : FS :=
  let mode := match fs.lookup name with
    | some fi => fi.mode
    | none => 0
  { (fs.setFile name ⟨mode, if ok then .pemData b else .corrupt⟩) with
    events := fs.events ++ [.encodePem name ok] }

/-- Model of `f.Close()`: records a close event. -/
def closeFile (fs : FS) (name : String) : FS :=
  { fs with events := fs.events ++ [.closeFile name] }

/-- go source, line 42: `defaultCertValidity = time.Hour * 24 * 365`, in
nanoseconds (`time.Hour = 3.6e12 ns`). -/
def defaultCertValidity : Int := 3600000000000 * 24 * 365

/-- go source, line 41: `defaultOrg = "WHIDS Manager"`. -/
def defaultOrg : String := "WHIDS Manager"

/-- Model of `rand.Int(rand.Reader, max)` from `crypto/rand`: returns a
uniform value in `[0, max)`; here the entropy reduced modulo `max`. -/
def randIntBelow (max entropy : Nat) : Nat := entropy % max

/-- Model of `rsa.GenerateKey(rand.Reader, bits)`: fails iff the entropy
source fails (`seed = none`); otherwise returns a key of the requested size. -/
def rsaGenerateKey (bits : Nat) (seed : Option Nat) : Option RSAKey :=
  seed.map (fun s => ⟨bits, s⟩)

/-- The SAN-classification loop of `generateCert` (lines 110-116): each host is
appended to `IPAddresses` if `net.ParseIP` succeeds on it, else to `DNSNames`,
in input order. `pip` is the IP parser. -/
def sanLists (pip : String → Option IPAddr) (hosts : List String) :
    List IPAddr × List String :=
  hosts.foldl
    (fun acc h =>
      match pip h with
      | some ip => (acc.1 ++ [ip], acc.2)
      | none => (acc.1, acc.2 ++ [h]))
    ([], [])

/-- Oracle inputs for one run of `generateCert`: the entropy for
`rsa.GenerateKey`, the clock value `time.Now()` (nanoseconds), the entropy for
the serial number, and the success of each fallible library call. -/
structure CertGenEnv where
  rsaSeed : Option Nat
  now : Int
  serialEntropy : Option Nat
  createOk : Bool
  openCertOk : Bool
  encodeCertOk : Bool
  openKeyOk : Bool
  encodeKeyOk : Bool
  ecMarshalOk : Bool
deriving DecidableEq

/-- How a run of `generateCert` ends: normal return of `nil`, return of an
error value, process exit (from inside `pemBlockForKey`), or a runtime panic
(`pem.Encode` on a nil block). -/
inductive GCResult where
  | ok
  | err (msg : String)
  | exited (code : Nat)
  | panicked
deriving DecidableEq

/-- The full outcome of a run of `generateCert`: the result value, the final
file-system state, the certificate created by `x509.CreateCertificate` (if
reached), and the generated private key (if reached). -/
structure GCOut where
  res : GCResult
  fs : FS
  cert : Option Certificate
  key : Option Priv
deriving DecidableEq

/-- go source, `generateCert(hosts []string) error` (lines 73-147), with the
IP parser `pip` (`net.ParseIP`) and the oracles of `env` made explicit.
Follows the source statement for statement: empty-hosts check; RSA-4096 key
generation; `notBefore := time.Now()`, `notAfter := notBefore + validity`;
128-bit random serial; template construction; SAN classification loop;
`x509.CreateCertificate` with the template as its own parent; write
`cert.pem` then `key.pem`, each opened with mode 0600, each PEM-encode error
discarded. -/
def generateCert (pip : String → Option IPAddr) (env : CertGenEnv) (fs : FS)
    (hosts : List String) : GCOut :=
  if hosts.length = 0 then
    ⟨.err "Missing required --host parameter", fs, none, none⟩
  else
    match rsaGenerateKey 4096 env.rsaSeed with
    | none => ⟨.err "failed to generate private key", fs, none, none⟩
    | some k =>
      let priv := Priv.rsa k
      let notBefore := env.now
      let notAfter := notBefore + defaultCertValidity
      match env.serialEntropy with
      | none => ⟨.err "failed to generate serial number", fs, none, some priv⟩
      | some e =>
        let serialNumber := randIntBelow (2 ^ 128) e
        let san := sanLists pip hosts
        let template : CertTemplate :=
          { serialNumber := serialNumber
            subjectOrg := [defaultOrg]
            notBefore := notBefore
            notAfter := notAfter
            keyUsage := kuKeyEncipherment ||| kuDigitalSignature
            extKeyUsage := [.serverAuth]
            basicConstraintsValid := true
            ipAddresses := san.1
            dnsNames := san.2 }
        match createCertificate env.createOk template template (publicKey priv) priv with
        | none => ⟨.err "Failed to create certificate", fs, none, some priv⟩
        | some cert =>
          match openFileTrunc fs env.openCertOk "cert.pem" 0o600 with
          | none => ⟨.err "failed to open cert.pem for writing", fs, some cert, some priv⟩
          | some fs1 =>
            let fs2 := closeFile
              (pemEncodeFile fs1 env.encodeCertOk "cert.pem" ⟨"CERTIFICATE", .certDer cert⟩)
              "cert.pem"
            match openFileTrunc fs2 env.openKeyOk "key.pem" 0o600 with
            | none => ⟨.err "failed to open key.pem for writing", fs2, some cert, some priv⟩
            | some fs3 =>
              match pemBlockForKey env.ecMarshalOk priv with
              | .block b =>
                let fs4 := closeFile (pemEncodeFile fs3 env.encodeKeyOk "key.pem" b) "key.pem"
                ⟨.ok, fs4, some cert, some priv⟩
              | .exitCode n => ⟨.exited n, fs3, some cert, some priv⟩
              | .nilBlock => ⟨.panicked, fs3, some cert, some priv⟩

/-! ### Model of Go `net.ParseIP` (standard library, called at line 111) -/

/-- Go `net.dtoi` digit loop: accumulate decimal digits starting from `n`,
rejecting values reaching the overflow bound `0xFFFFFF`. Returns the value and
the unconsumed characters. -/
def dtoiAux : List Char → Nat → Option (Nat × List Char)
  | [], n => some (n, [])
  | c :: cs, n =>
      if c.isDigit then
        let n2 := n * 10 + (c.toNat - 48)
        if n2 ≥ 0xFFFFFF then none else dtoiAux cs n2
      else some (n, c :: cs)

/-- Go `net.dtoi`: parse a nonempty decimal prefix; fails when there is no
digit or on overflow. -/
def dtoi : List Char → Option (Nat × List Char)
  | [] => none
  | c :: cs => if c.isDigit then dtoiAux (c :: cs) 0 else none

/-- Go `net.parseIPv4` field loop: `fieldsLeft` dotted-decimal fields remain;
each but the first is preceded by a dot; each field is a decimal `≤ 0xFF`;
the input must be fully consumed at the end. -/
def parseIPv4Fields : Nat → List Char → List Nat → Option (List Nat)
  | 0, rest, acc => if rest.isEmpty then some acc else none
  | fieldsLeft + 1, rest, acc =>
      let afterDot : Option (List Char) :=
        if acc.isEmpty then some rest
        else
          match rest with
          | '.' :: cs => some cs
          | _ => none
      match afterDot with
      | none => none
      | some r =>
        match dtoi r with
        | none => none
        | some (n, r2) =>
            if n > 0xFF then none
            else parseIPv4Fields fieldsLeft r2 (acc ++ [n])

/-- Go `net.IPv4(a, b, c, d)`: the 16-byte IPv4-in-IPv6 representation. -/
def ipv4Mapped (a b c d : Nat) : IPAddr :=
  [0, 0, 0, 0, 0, 0, 0, 0, 0, 0, 255, 255, a, b, c, d]

/-- Go `net.parseIPv4`: four dotted-decimal fields, each `≤ 255`. -/
def parseIPv4 (s : String) : Option IPAddr :=
  match parseIPv4Fields 4 s.toList [] with
  | some [a, b, c, d] => some (ipv4Mapped a b c d)
  | _ => none

/-- Go `net.ParseIP`: scan for the first `.` or `:`; a `.` dispatches to the
IPv4 parser, a `:` to the IPv6 parser (left abstract as `parseV6`, since no
claim depends on its values), anything else yields nil. -/
def goParseIP (parseV6 : String → Option IPAddr) (s : String) : Option IPAddr :=
  match s.toList.find? (fun c => c = '.' ∨ c = ':') with
  | some '.' => parseIPv4 s
  | some ':' => parseV6 s
  | _ => none

/-! ### Model of `collector.ManagerConfig` and its JSON round trip

The `collector` package is not part of the sources under verification; per the
spec, `ManagerConfig` is a structure "with at minimum a `Host` field",
serialized by `json.MarshalIndent(conf, "", "    ")` (line 178) and parsed by
`json.Unmarshal` (line 195). -/

/-- Modelled from the spec: `collector.ManagerConfig` (its definition is not
under `src/`), "a validated structure with at minimum a `Host` field"; the Go
zero value has `Host = ""`. -/
structure ManagerConfig where
  Host : String
deriving DecidableEq

/-- Model of `json.MarshalIndent(conf, "", "    ")` for this structure:
an object with the `Host` field, four-space indentation. -/
def marshalIndentConfig (c : ManagerConfig) : String :=
  "\x7b\n    \"Host\": \"" ++ c.Host ++ "\"\n\x7d"

/-- The skeleton dumped by the `-dump-config` path (line 178):
`json.MarshalIndent(collector.ManagerConfig\x7b\x7d, "", "    ")`. -/
def dumpSkeleton : String := marshalIndentConfig ⟨""⟩

/-- The opening-brace character, written via its code point. -/
def obrace : Char := Char.ofNat 123

/-- The closing-brace character, written via its code point. -/
def cbrace : Char := Char.ofNat 125

/-- Skip JSON whitespace. -/
def skipWs : List Char → List Char
  | c :: cs => if c = ' ' ∨ c = '\n' ∨ c = '\t' ∨ c = '\r' then skipWs cs else c :: cs
  | [] => []

/-- Read the body of a JSON string up to the closing quote (escape sequences
are not needed by any value this model serializes). -/
def jsStringBody : List Char → List Char → Option (String × List Char)
  | [], _ => none
  | c :: cs, acc =>
      if c = '"' then some (String.mk acc.reverse, cs)
      else if c = '\\' then none
      else jsStringBody cs (c :: acc)

/-- Parse a JSON string literal. -/
def jsString : List Char → Option (String × List Char)
  | '"' :: cs => jsStringBody cs []
  | _ => none

/-- Parse the comma-separated `"key": "value"` fields of a flat JSON object,
folding recognized keys into the configuration (unknown keys are tolerated and
ignored, as `json.Unmarshal` does). `fuel` bounds the recursion by the input
length. -/
def jsFields : Nat → List Char → ManagerConfig → Option (ManagerConfig × List Char)
  | 0, _, _ => none
  | fuel + 1, l, c =>
      match jsString (skipWs l) with
      | none => none
      | some (k, r1) =>
        match skipWs r1 with
        | ':' :: r2 =>
          match jsString (skipWs r2) with
          | none => none
          | some (v, r3) =>
            let c2 : ManagerConfig := if k = "Host" then ⟨v⟩ else c
            match skipWs r3 with
            | ',' :: r4 => jsFields fuel r4 c2
            | r4 => some (c2, r4)
        | _ => none

/-- Model of `json.Unmarshal(b, &managerConf)` for this structure (line 195):
parse a flat JSON object of string fields into a `ManagerConfig` starting from
the zero value; reject trailing garbage. -/
def unmarshalConfig (s : String) : Option ManagerConfig :=
  match skipWs s.toList with
  | c :: cs =>
      if c = obrace then
        match skipWs cs with
        | d :: ds =>
            if d = cbrace then
              if (skipWs ds).isEmpty then some ⟨""⟩ else none
            else
              match jsFields (cs.length + 1) (d :: ds) ⟨""⟩ with
              | some (conf, rest) =>
                match skipWs rest with
                | e :: es =>
                    if e = cbrace ∧ (skipWs es).isEmpty then some conf else none
                | [] => none
              | none => none
        | [] => none
      else none
  | [] => none

/-! ### The `-certgen` CLI path (main, lines 202-209) -/

/-- go source, lines 202-203: the `-certgen` path invokes
`generateCert([]string\x7bmanagerConf.Host\x7d)` — a one-element host list built
from the loaded configuration. -/
def certgenRun (pip : String → Option IPAddr) (env : CertGenEnv) (fs : FS)
    (conf : ManagerConfig) : GCOut :=
  generateCert pip env fs [conf.Host]

/-! ### The run/shutdown lifecycle (main, lines 217-225)

The source registers the interrupt signal, spawns a goroutine that blocks on
one signal receive and then calls `manager.Shutdown()` once, and on the main
goroutine calls `manager.Run()` then `manager.Wait()`. The manager itself is
the external collaborator; per the spec it is modelled as the fake
collaborator of §8: `Run` returns once shutdown has been requested, and
`Wait` returns once shutdown has been requested. The two goroutines and the
signal delivery are an interleaving transition system. -/

/-- Program counter of the signal-listener goroutine: blocked on
`<-osSignals`, about to call `manager.Shutdown()`, or finished. -/
inductive LSt where
  | waitSig
  | gotSig
  | done
deriving DecidableEq

/-- Program counter of the main goroutine: inside `manager.Run()`, inside
`manager.Wait()`, or finished. -/
inductive MSt where
  | running
  | waiting
  | stopped
deriving DecidableEq

/-- Joint state: the two goroutine counters, whether the interrupt signal has
been delivered, and how many times `manager.Shutdown()` has been invoked. -/
structure Sys where
  listener : LSt
  mainT : MSt
  delivered : Bool
  shutdowns : Nat
deriving DecidableEq

/-- One interleaving step: signal delivery by the environment; the listener
receiving the signal; the listener invoking `Shutdown` (straight-line code, so
at most once); `Run` returning after shutdown was requested; `Wait` returning
after shutdown was requested (fake collaborator semantics). -/
inductive SysStep : Sys → Sys → Prop where
  | deliver (s : Sys) : s.delivered = false → SysStep s { s with delivered := true }
  | recv (s : Sys) : s.listener = .waitSig → s.delivered = true →
      SysStep s { s with listener := .gotSig }
  | shut (s : Sys) : s.listener = .gotSig →
      SysStep s { s with listener := .done, shutdowns := s.shutdowns + 1 }
  | runRet (s : Sys) : s.mainT = .running → 1 ≤ s.shutdowns →
      SysStep s { s with mainT := .waiting }
  | waitRet (s : Sys) : s.mainT = .waiting → 1 ≤ s.shutdowns →
      SysStep s { s with mainT := .stopped }

/-- The state right after `signal.Notify` and the `go func` statement: listener
blocked, main inside `Run`, no signal yet, no shutdown yet. -/
def sysInit : Sys := ⟨.waitSig, .running, false, 0⟩

/-- Reflexive-transitive closure of `SysStep`: finite executions. -/
inductive SysSteps : Sys → Sys → Prop where
  | refl (s : Sys) : SysSteps s s
  | tail {a b c : Sys} : SysSteps a b → SysStep b c → SysSteps a c

/-- A state with no enabled step; an execution is maximal iff it ends stuck. -/
def SysStuck (s : Sys) : Prop := ∀ t, ¬ SysStep s t

/-- Ranking function: strictly decreases along every step, so every execution
is finite (no livelock). -/
def sysMeasure (s : Sys) : Nat :=
  (if s.delivered then 0 else 1) +
    (match s.listener with
     | .waitSig => 2
     | .gotSig => 1
     | .done => 0) +
    (match s.mainT with
     | .running => 2
     | .waiting => 1
     | .stopped => 0)

/-- Inductive invariant of the lifecycle system: the shutdown count is 0 until
the listener has run `Shutdown` and 1 afterwards; the listener only advances
after delivery; the main goroutine only leaves `Run` after a shutdown. -/
def SysInv (s : Sys) : Prop :=
  s.shutdowns = (if s.listener = .done then 1 else 0) ∧
    (s.listener ≠ .waitSig → s.delivered = true) ∧
    (s.mainT ≠ .running → 1 ≤ s.shutdowns)

/-! ### Helper lemmas -/

/-- The SAN fold, started from arbitrary accumulators, appends the classified
hosts in input order. -/
theorem sanLists_foldl (pip : String → Option IPAddr) (hosts : List String)
    (acc : List IPAddr × List String) :
    hosts.foldl
      (fun acc h =>
        match pip h with
        | some ip => (acc.1 ++ [ip], acc.2)
        | none => (acc.1, acc.2 ++ [h]))
      acc =
      (acc.1 ++ hosts.filterMap pip,
        acc.2 ++ hosts.filter (fun h => (pip h).isNone)) := by
  induction hosts generalizing acc with
  | nil => simp
  | cons h hs ih =>
      cases hph : pip h with
      | some ip =>
          simp [List.foldl_cons, hph, ih, List.filterMap_cons, List.filter_cons]
      | none =>
          simp [List.foldl_cons, hph, ih, List.filterMap_cons, List.filter_cons]

/-- The SAN classification loop produces exactly the IP-parsing partition of
the host list, in order. -/
theorem sanLists_spec (pip : String → Option IPAddr) (hosts : List String) :
    sanLists pip hosts =
      (hosts.filterMap pip, hosts.filter (fun h => (pip h).isNone)) := by
  simpa [sanLists] using sanLists_foldl pip hosts ([], [])

/-- Each host lands in exactly one of the two SAN lists, so the lengths add up
to the number of hosts. -/
theorem length_filterMap_add_filter (pip : String → Option IPAddr)
    (hosts : List String) :
    (hosts.filterMap pip).length +
        (hosts.filter (fun h => (pip h).isNone)).length = hosts.length := by
  induction hosts with
  | nil => simp
  | cons h hs ih =>
      cases hph : pip h with
      | some ip =>
          simp [List.filterMap_cons, List.filter_cons, hph]
          omega
      | none =>
          simp only [List.filterMap_cons, List.filter_cons, hph, Option.isNone_none]
          simp only [List.length_cons, List.length]
          omega

/-- Inversion: any certificate coming out of `generateCert` is the self-signed
record built from the template — this pins down every field. -/
theorem generateCert_cert_inv (pip : String → Option IPAddr) (env : CertGenEnv)
    (fs : FS) (hosts : List String) (c : Certificate)
    (hc : (generateCert pip env fs hosts).cert = some c) :
    hosts.length ≠ 0 ∧
      ∃ r e, env.rsaSeed = some r ∧ env.serialEntropy = some e ∧
        env.createOk = true ∧
        c = { serialNumber := randIntBelow (2 ^ 128) e
              subjectOrg := [defaultOrg]
              issuerOrg := [defaultOrg]
              notBefore := env.now
              notAfter := env.now + defaultCertValidity
              keyUsage := kuKeyEncipherment ||| kuDigitalSignature
              extKeyUsage := [.serverAuth]
              basicConstraintsValid := true
              ipAddresses := (sanLists pip hosts).1
              dnsNames := (sanLists pip hosts).2
              pub := some (.rsa 4096 r)
              signedWith := .rsa ⟨4096, r⟩ } := by
  unfold generateCert at hc
  split at hc
  · exact absurd hc (by simp)
  · rename_i hlen
    refine ⟨hlen, ?_⟩
    cases hr : env.rsaSeed with
    | none => simp [rsaGenerateKey, hr] at hc
    | some r =>
        simp only [rsaGenerateKey, hr, Option.map_some] at hc
        cases he : env.serialEntropy with
        | none => simp [he] at hc
        | some e =>
            simp only [he] at hc
            refine ⟨r, e, rfl, rfl, ?_⟩
            cases hco : env.createOk with
            | false => simp [createCertificate, hco] at hc
            | true =>
                simp only [createCertificate, hco, if_true] at hc
                cases hoc : env.openCertOk with
                | false =>
                    simp only [openFileTrunc, hoc, Bool.false_eq_true, if_false] at hc
                    cases hc
                    exact ⟨rfl, by simp [publicKey]⟩
                | true =>
                    simp only [openFileTrunc, hoc, if_true] at hc
                    cases hok : env.openKeyOk with
                    | false =>
                        simp only [openFileTrunc, hok, Bool.false_eq_true, if_false] at hc
                        cases hc
                        exact ⟨rfl, by simp [publicKey]⟩
                    | true =>
                        simp only [openFileTrunc, hok, if_true, pemBlockForKey] at hc
                        cases hc
                        exact ⟨rfl, by simp [publicKey]⟩

/-- Inversion for the generated key: any key coming out of `generateCert` is
the RSA-4096 key generated from the environment entropy. -/
theorem generateCert_key_inv (pip : String → Option IPAddr) (env : CertGenEnv)
    (fs : FS) (hosts : List String) (k : Priv)
    (hk : (generateCert pip env fs hosts).key = some k) :
    ∃ r, env.rsaSeed = some r ∧ k = .rsa ⟨4096, r⟩ := by
  unfold generateCert at hk
  split at hk
  · exact absurd hk (by simp)
  · cases hr : env.rsaSeed with
    | none => simp [rsaGenerateKey, hr] at hk
    | some r =>
        refine ⟨r, rfl, ?_⟩
        simp only [rsaGenerateKey, hr, Option.map_some, pemBlockForKey] at hk
        repeat' split at hk
        all_goals simp_all

/-! ### Claims -/

/-- C1: for every non-empty host list, each input string becomes exactly one
Subject Alternative Name entry — an IP entry iff the IP parser succeeds on it,
a DNS entry otherwise — and the certificate SAN lists are exactly this
classification of the input hosts, in input order, with no omissions and no
duplicates (the two lengths add up to the number of hosts). -/
theorem claim_C1_san_partition (pip : String → Option IPAddr) (env : CertGenEnv)
    (fs : FS) (hosts : List String) (c : Certificate)
    (_hne : hosts ≠ [])
    (hc : (generateCert pip env fs hosts).cert = some c) :
    c.ipAddresses = hosts.filterMap pip ∧
      c.dnsNames = hosts.filter (fun h => (pip h).isNone) ∧
      c.ipAddresses.length + c.dnsNames.length = hosts.length := by
  obtain ⟨-, r, e, -, -, -, hcert⟩ := generateCert_cert_inv pip env fs hosts c hc
  subst hcert
  refine ⟨by simp [sanLists_spec], by simp [sanLists_spec], ?_⟩
  simpa [sanLists_spec] using length_filterMap_add_filter pip hosts

/-- Witness for C1 at the concrete host list `["10.0.0.5"]` with all oracles
succeeding: the single host parses as an IP and becomes the only SAN entry. -/
theorem claim_C1_san_partition_witness :
    (["10.0.0.5"] : List String) ≠ [] ∧
      (generateCert (goParseIP fun _ => none)
          ⟨some 7, 1000, some 9, true, true, true, true, true, true⟩ ⟨[], []⟩
          ["10.0.0.5"]).cert =
        some ⟨9, ["WHIDS Manager"], ["WHIDS Manager"], 1000, 31536000000001000, 5,
          [.serverAuth], true, [[0, 0, 0, 0, 0, 0, 0, 0, 0, 0, 255, 255, 10, 0, 0, 5]],
          [], some (.rsa 4096 7), .rsa ⟨4096, 7⟩⟩ ∧
      ([[0, 0, 0, 0, 0, 0, 0, 0, 0, 0, 255, 255, 10, 0, 0, 5]] : List IPAddr) =
          (["10.0.0.5"] : List String).filterMap (goParseIP fun _ => none) ∧
        ([] : List String) =
          (["10.0.0.5"] : List String).filter
            (fun h => ((goParseIP (fun _ => none)) h).isNone) ∧
        1 + 0 = 1 :=
  ⟨by decide, by decide,
    claim_C1_san_partition (goParseIP fun _ => none)
      ⟨some 7, 1000, some 9, true, true, true, true, true, true⟩ ⟨[], []⟩
      ["10.0.0.5"]
      ⟨9, ["WHIDS Manager"], ["WHIDS Manager"], 1000, 31536000000001000, 5,
        [.serverAuth], true, [[0, 0, 0, 0, 0, 0, 0, 0, 0, 0, 255, 255, 10, 0, 0, 5]],
        [], some (.rsa 4096 7), .rsa ⟨4096, 7⟩⟩
      (by decide) (by decide)⟩

/-- C3: every certificate produced by `generateCert` has
`NotBefore = time.Now()` (the generation time) and
`NotAfter = NotBefore + 365 * 24h`, hence `NotBefore ≤ NotAfter` and the
generation time lies within `[NotBefore, NotAfter]`. -/
theorem claim_C3_validity_window (pip : String → Option IPAddr) (env : CertGenEnv)
    (fs : FS) (hosts : List String) (c : Certificate)
    (hc : (generateCert pip env fs hosts).cert = some c) :
    c.notBefore = env.now ∧
      c.notAfter = c.notBefore + 3600000000000 * 24 * 365 ∧
      c.notBefore ≤ c.notAfter ∧
      c.notBefore ≤ env.now ∧ env.now ≤ c.notAfter := by
  obtain ⟨-, r, e, -, -, -, hcert⟩ := generateCert_cert_inv pip env fs hosts c hc
  subst hcert
  refine ⟨rfl, rfl, ?_, le_refl _, ?_⟩ <;>
    simp only [defaultCertValidity] <;> omega

/-- Witness for C3 at a concrete run: the window starts at the clock value
1000 and extends exactly 365 days. -/
theorem claim_C3_validity_window_witness :
    (generateCert (goParseIP fun _ => none)
        ⟨some 7, 1000, some 9, true, true, true, true, true, true⟩ ⟨[], []⟩
        ["10.0.0.5"]).cert =
      some ⟨9, ["WHIDS Manager"], ["WHIDS Manager"], 1000, 31536000000001000, 5,
        [.serverAuth], true, [[0, 0, 0, 0, 0, 0, 0, 0, 0, 0, 255, 255, 10, 0, 0, 5]],
        [], some (.rsa 4096 7), .rsa ⟨4096, 7⟩⟩ ∧
    ((1000 : Int) = 1000 ∧
      (31536000000001000 : Int) = 1000 + 3600000000000 * 24 * 365 ∧
      (1000 : Int) ≤ 31536000000001000 ∧
      (1000 : Int) ≤ 1000 ∧ (1000 : Int) ≤ 31536000000001000) :=
  ⟨by decide,
    claim_C3_validity_window (goParseIP fun _ => none)
      ⟨some 7, 1000, some 9, true, true, true, true, true, true⟩ ⟨[], []⟩
      ["10.0.0.5"]
      ⟨9, ["WHIDS Manager"], ["WHIDS Manager"], 1000, 31536000000001000, 5,
        [.serverAuth], true, [[0, 0, 0, 0, 0, 0, 0, 0, 0, 0, 255, 255, 10, 0, 0, 5]],
        [], some (.rsa 4096 7), .rsa ⟨4096, 7⟩⟩
      (by decide)⟩

/-- C4: every certificate template built by `generateCert` has a random serial
below `2^128`, subject organization `["WHIDS Manager"]`, key usage exactly
digital-signature plus key-encipherment, extended key usage exactly
server-auth, `BasicConstraintsValid = true`, issuer equal to subject
(self-signed with the template as both subject and issuer), and is signed with
the generated RSA-4096 private key whose public half is embedded. -/
theorem claim_C4_template_fields (pip : String → Option IPAddr) (env : CertGenEnv)
    (fs : FS) (hosts : List String) (c : Certificate)
    (hc : (generateCert pip env fs hosts).cert = some c) :
    c.serialNumber < 2 ^ 128 ∧
      c.subjectOrg = [defaultOrg] ∧ defaultOrg = "WHIDS Manager" ∧
      c.keyUsage = kuDigitalSignature ||| kuKeyEncipherment ∧
      c.extKeyUsage = [.serverAuth] ∧
      c.basicConstraintsValid = true ∧
      c.issuerOrg = c.subjectOrg ∧
      (∃ r, env.rsaSeed = some r ∧ c.signedWith = .rsa ⟨4096, r⟩) ∧
      c.pub = publicKey c.signedWith := by
  obtain ⟨-, r, e, hr, -, -, hcert⟩ := generateCert_cert_inv pip env fs hosts c hc
  subst hcert
  refine ⟨?_, rfl, rfl, ?_, rfl, rfl, rfl, ⟨r, hr, rfl⟩, rfl⟩
  · exact Nat.mod_lt _ (by positivity)
  · show kuKeyEncipherment ||| kuDigitalSignature = kuDigitalSignature ||| kuKeyEncipherment
    decide

/-- Witness for C4 at a concrete run: the produced certificate has serial 9,
the fixed organization, key usage 5, server-auth, and is self-signed with the
generated key. -/
theorem claim_C4_template_fields_witness :
    (generateCert (goParseIP fun _ => none)
        ⟨some 7, 1000, some 9, true, true, true, true, true, true⟩ ⟨[], []⟩
        ["10.0.0.5"]).cert =
      some ⟨9, ["WHIDS Manager"], ["WHIDS Manager"], 1000, 31536000000001000, 5,
        [.serverAuth], true, [[0, 0, 0, 0, 0, 0, 0, 0, 0, 0, 255, 255, 10, 0, 0, 5]],
        [], some (.rsa 4096 7), .rsa ⟨4096, 7⟩⟩ ∧
    ((9 : Nat) < 2 ^ 128 ∧
      ["WHIDS Manager"] = [defaultOrg] ∧ defaultOrg = "WHIDS Manager" ∧
      (5 : Nat) = kuDigitalSignature ||| kuKeyEncipherment ∧
      ([ExtKeyUsage.serverAuth] : List ExtKeyUsage) = [.serverAuth] ∧
      true = true ∧
      ["WHIDS Manager"] = ["WHIDS Manager"] ∧
      (∃ r, (some 7 : Option Nat) = some r ∧ Priv.rsa ⟨4096, 7⟩ = .rsa ⟨4096, r⟩) ∧
      (some (PubKey.rsa 4096 7) : Option PubKey) = publicKey (.rsa ⟨4096, 7⟩)) :=
  ⟨by decide,
    claim_C4_template_fields (goParseIP fun _ => none)
      ⟨some 7, 1000, some 9, true, true, true, true, true, true⟩ ⟨[], []⟩
      ["10.0.0.5"]
      ⟨9, ["WHIDS Manager"], ["WHIDS Manager"], 1000, 31536000000001000, 5,
        [.serverAuth], true, [[0, 0, 0, 0, 0, 0, 0, 0, 0, 0, 255, 255, 10, 0, 0, 5]],
        [], some (.rsa 4096 7), .rsa ⟨4096, 7⟩⟩
      (by decide)⟩

/-- C2: calling `generateCert` with an empty host list returns the
configuration error and leaves the state untouched: the file system (files
and event trace) is unchanged, no certificate is created and no key material
is generated. -/
theorem claim_C2_empty_hosts (pip : String → Option IPAddr) (env : CertGenEnv)
    (fs : FS) :
    generateCert pip env fs [] =
      ⟨.err "Missing required --host parameter", fs, none, none⟩ := by
  unfold generateCert
  simp

/-- Forward characterization of the result value once the key, the serial and
the certificate creation succeed: it depends only on the two `OpenFile`
oracles; in particular the PEM-encoding oracles do not influence it. -/
theorem generateCert_res (pip : String → Option IPAddr) (env : CertGenEnv)
    (fs : FS) (hosts : List String) (r e : Nat)
    (hne : hosts.length ≠ 0) (hr : env.rsaSeed = some r)
    (he : env.serialEntropy = some e) (hco : env.createOk = true) :
    (generateCert pip env fs hosts).res =
      if env.openCertOk = false then .err "failed to open cert.pem for writing"
      else if env.openKeyOk = false then .err "failed to open key.pem for writing"
      else .ok := by
  unfold generateCert
  rw [if_neg hne]
  simp only [rsaGenerateKey, hr, Option.map_some, he, createCertificate, hco,
    if_true, pemBlockForKey]
  cases hoc : env.openCertOk <;> cases hok : env.openKeyOk <;>
    simp [openFileTrunc, hoc, hok]

/-- Forward characterization of the produced certificate once the key, the
serial and the certificate creation succeed (whatever the file oracles do). -/
theorem generateCert_cert_eq (pip : String → Option IPAddr) (env : CertGenEnv)
    (fs : FS) (hosts : List String) (r e : Nat)
    (hne : hosts.length ≠ 0) (hr : env.rsaSeed = some r)
    (he : env.serialEntropy = some e) (hco : env.createOk = true) :
    (generateCert pip env fs hosts).cert =
      some { serialNumber := randIntBelow (2 ^ 128) e
             subjectOrg := [defaultOrg]
             issuerOrg := [defaultOrg]
             notBefore := env.now
             notAfter := env.now + defaultCertValidity
             keyUsage := kuKeyEncipherment ||| kuDigitalSignature
             extKeyUsage := [.serverAuth]
             basicConstraintsValid := true
             ipAddresses := (sanLists pip hosts).1
             dnsNames := (sanLists pip hosts).2
             pub := some (.rsa 4096 r)
             signedWith := .rsa ⟨4096, r⟩ } := by
  unfold generateCert
  rw [if_neg hne]
  simp only [rsaGenerateKey, hr, Option.map_some, he, createCertificate, hco,
    if_true, pemBlockForKey, publicKey]
  cases hoc : env.openCertOk <;> cases hok : env.openKeyOk <;>
    simp [openFileTrunc, hoc, hok]

/-- Forward characterization of the event trace of a fully successful run:
`cert.pem` is opened with mode `0600`, encoded and closed strictly before
`key.pem` is opened with mode `0600`, encoded and closed. -/
theorem generateCert_events (pip : String → Option IPAddr) (env : CertGenEnv)
    (fs : FS) (hosts : List String) (r e : Nat)
    (hne : hosts.length ≠ 0) (hr : env.rsaSeed = some r)
    (he : env.serialEntropy = some e) (hco : env.createOk = true)
    (hoc : env.openCertOk = true) (hok : env.openKeyOk = true) :
    (generateCert pip env fs hosts).fs.events =
      fs.events ++
        [.openWrite "cert.pem" 0o600, .encodePem "cert.pem" env.encodeCertOk,
          .closeFile "cert.pem", .openWrite "key.pem" 0o600,
          .encodePem "key.pem" env.encodeKeyOk, .closeFile "key.pem"] := by
  unfold generateCert
  rw [if_neg hne]
  simp only [rsaGenerateKey, hr, Option.map_some, he, createCertificate, hco,
    if_true, pemBlockForKey]
  simp [openFileTrunc, hoc, hok, pemEncodeFile, closeFile, FS.setFile]

/-- Forward characterization of the state when opening `key.pem` fails after
`cert.pem` was successfully written: the error names `key.pem` and the
already-written `cert.pem` (mode `0600`, PEM `CERTIFICATE` block of the
created certificate) is left in place. -/
theorem generateCert_keyfail (pip : String → Option IPAddr) (env : CertGenEnv)
    (fs : FS) (hosts : List String) (r e : Nat)
    (hne : hosts.length ≠ 0) (hr : env.rsaSeed = some r)
    (he : env.serialEntropy = some e) (hco : env.createOk = true)
    (hoc : env.openCertOk = true) (hec : env.encodeCertOk = true)
    (hok : env.openKeyOk = false) :
    (generateCert pip env fs hosts).res = .err "failed to open key.pem for writing" ∧
      ∃ c, (generateCert pip env fs hosts).cert = some c ∧
        ((generateCert pip env fs hosts).fs).lookup "cert.pem" =
          some ⟨0o600, .pemData ⟨"CERTIFICATE", .certDer c⟩⟩ := by
  unfold generateCert
  rw [if_neg hne]
  simp only [rsaGenerateKey, hr, Option.map_some, he, createCertificate, hco,
    if_true, pemBlockForKey]
  simp [openFileTrunc, hoc, hok, hec, pemEncodeFile, closeFile, FS.setFile,
    FS.lookup, List.find?]

/-- C5, corrected: during persistence, a failure to open either file aborts
`generateCert` with an error naming that file; but a PEM-encoding failure on
either file is silently discarded — the run still reports success (the Go
source ignores the value returned by `pem.Encode`). -/
theorem claim_C5_open_failures_reported_encode_ignored :
    (∀ (pip : String → Option IPAddr) (env : CertGenEnv) (fs : FS)
        (hosts : List String) (r e : Nat),
      hosts.length ≠ 0 → env.rsaSeed = some r → env.serialEntropy = some e →
      env.createOk = true → env.openCertOk = false →
      (generateCert pip env fs hosts).res =
        .err "failed to open cert.pem for writing") ∧
    (∀ (pip : String → Option IPAddr) (env : CertGenEnv) (fs : FS)
        (hosts : List String) (r e : Nat),
      hosts.length ≠ 0 → env.rsaSeed = some r → env.serialEntropy = some e →
      env.createOk = true → env.openCertOk = true → env.openKeyOk = false →
      (generateCert pip env fs hosts).res =
        .err "failed to open key.pem for writing") ∧
    (∀ (pip : String → Option IPAddr) (env : CertGenEnv) (fs : FS)
        (hosts : List String) (r e : Nat),
      hosts.length ≠ 0 → env.rsaSeed = some r → env.serialEntropy = some e →
      env.createOk = true → env.openCertOk = true → env.openKeyOk = true →
      (generateCert pip env fs hosts).res = .ok) := by
  refine ⟨?_, ?_, ?_⟩ <;>
    intro pip env fs hosts r e hne hr he hco h1 <;>
    [skip; intro h2; intro h2] <;>
    rw [generateCert_res pip env fs hosts r e hne hr he hco] <;>
    simp [h1]
  · simp [h2]
  · simp [h2]

/-- Witness for the corrected C5, at concrete runs: opening `cert.pem`
failing yields the cert error; opening `key.pem` failing yields the key
error; with both opens succeeding but both PEM encodings failing, the run
still returns success. -/
theorem claim_C5_witness :
    (generateCert (goParseIP fun _ => none)
        ⟨some 7, 1000, some 9, true, false, true, true, true, true⟩ ⟨[], []⟩
        ["10.0.0.5"]).res = .err "failed to open cert.pem for writing" ∧
      (generateCert (goParseIP fun _ => none)
          ⟨some 7, 1000, some 9, true, true, true, false, true, true⟩ ⟨[], []⟩
          ["10.0.0.5"]).res = .err "failed to open key.pem for writing" ∧
      (generateCert (goParseIP fun _ => none)
          ⟨some 7, 1000, some 9, true, true, false, true, false, true⟩ ⟨[], []⟩
          ["10.0.0.5"]).res = .ok :=
  ⟨claim_C5_open_failures_reported_encode_ignored.1 _ _ _ _ 7 9 (by decide) rfl rfl
      rfl rfl,
    claim_C5_open_failures_reported_encode_ignored.2.1 _ _ _ _ 7 9 (by decide) rfl
      rfl rfl rfl rfl,
    claim_C5_open_failures_reported_encode_ignored.2.2 _ _ _ _ 7 9 (by decide) rfl
      rfl rfl rfl rfl⟩

/-- Counterexample to C5 as stated: a PEM-encoding failure on `cert.pem` is
not detected — the encoding failure event is recorded in the trace, yet
`generateCert` returns success instead of an error. -/
theorem claim_C5_counterexample :
    (generateCert (goParseIP fun _ => none)
        ⟨some 7, 1000, some 9, true, true, false, true, true, true⟩ ⟨[], []⟩
        ["10.0.0.5"]).res = .ok ∧
      FsEvent.encodePem "cert.pem" false ∈
        (generateCert (goParseIP fun _ => none)
            ⟨some 7, 1000, some 9, true, true, false, true, true, true⟩ ⟨[], []⟩
            ["10.0.0.5"]).fs.events := by
  constructor
  · rfl
  · decide

/-- C6: in every fully successful run, `cert.pem` is opened (mode `0600`),
written and closed strictly before `key.pem` is opened (mode `0600`), written
and closed; and when opening `key.pem` fails after `cert.pem` was written,
the run aborts naming `key.pem` while `cert.pem` is left in place with the
PEM `CERTIFICATE` block of the created certificate. -/
theorem claim_C6_order_and_no_rollback :
    (∀ (pip : String → Option IPAddr) (env : CertGenEnv) (fs : FS)
        (hosts : List String) (r e : Nat),
      hosts.length ≠ 0 → env.rsaSeed = some r → env.serialEntropy = some e →
      env.createOk = true → env.openCertOk = true → env.openKeyOk = true →
      (generateCert pip env fs hosts).fs.events =
        fs.events ++
          [.openWrite "cert.pem" 0o600, .encodePem "cert.pem" env.encodeCertOk,
            .closeFile "cert.pem", .openWrite "key.pem" 0o600,
            .encodePem "key.pem" env.encodeKeyOk, .closeFile "key.pem"]) ∧
    (∀ (pip : String → Option IPAddr) (env : CertGenEnv) (fs : FS)
        (hosts : List String) (r e : Nat),
      hosts.length ≠ 0 → env.rsaSeed = some r → env.serialEntropy = some e →
      env.createOk = true → env.openCertOk = true → env.encodeCertOk = true →
      env.openKeyOk = false →
      (generateCert pip env fs hosts).res =
          .err "failed to open key.pem for writing" ∧
        ∃ c, (generateCert pip env fs hosts).cert = some c ∧
          ((generateCert pip env fs hosts).fs).lookup "cert.pem" =
            some ⟨0o600, .pemData ⟨"CERTIFICATE", .certDer c⟩⟩) :=
  ⟨fun pip env fs hosts r e hne hr he hco hoc hok =>
      generateCert_events pip env fs hosts r e hne hr he hco hoc hok,
    fun pip env fs hosts r e hne hr he hco hoc hec hok =>
      generateCert_keyfail pip env fs hosts r e hne hr he hco hoc hec hok⟩

/-- Witness for C6 at concrete runs: the six events in order on success, and
the preserved `cert.pem` when `key.pem` cannot be opened. -/
theorem claim_C6_witness :
    (generateCert (goParseIP fun _ => none)
        ⟨some 7, 1000, some 9, true, true, true, true, true, true⟩ ⟨[], []⟩
        ["10.0.0.5"]).fs.events =
      [] ++
        [.openWrite "cert.pem" 0o600, .encodePem "cert.pem" true,
          .closeFile "cert.pem", .openWrite "key.pem" 0o600,
          .encodePem "key.pem" true, .closeFile "key.pem"] ∧
      ((generateCert (goParseIP fun _ => none)
            ⟨some 7, 1000, some 9, true, true, true, false, true, true⟩ ⟨[], []⟩
            ["10.0.0.5"]).res = .err "failed to open key.pem for writing" ∧
        ∃ c, (generateCert (goParseIP fun _ => none)
              ⟨some 7, 1000, some 9, true, true, true, false, true, true⟩ ⟨[], []⟩
              ["10.0.0.5"]).cert = some c ∧
          ((generateCert (goParseIP fun _ => none)
                ⟨some 7, 1000, some 9, true, true, true, false, true, true⟩ ⟨[], []⟩
                ["10.0.0.5"]).fs).lookup "cert.pem" =
            some ⟨0o600, .pemData ⟨"CERTIFICATE", .certDer c⟩⟩) :=
  ⟨claim_C6_order_and_no_rollback.1 _ _ _ _ 7 9 (by decide) rfl rfl rfl rfl rfl,
    claim_C6_order_and_no_rollback.2 _ _ _ _ 7 9 (by decide) rfl rfl rfl rfl rfl rfl⟩

/-- C9: the `-certgen` CLI path always passes the one-element host list
`[conf.Host]`, so the empty-host-list error of `generateCert` is unreachable
from the CLI; and when the configured `Host` is the empty string (which
`net.ParseIP` rejects, whatever the IPv6 sub-parser does), the run still
produces a certificate whose SANs are exactly one empty-string DNS entry and
no IP entry, and with all oracles succeeding it returns success. -/
theorem claim_C9_certgen_host_list :
    (∀ (pip : String → Option IPAddr) (env : CertGenEnv) (fs : FS)
        (conf : ManagerConfig),
      (certgenRun pip env fs conf).res ≠ .err "Missing required --host parameter") ∧
    (∀ (parseV6 : String → Option IPAddr) (env : CertGenEnv) (fs : FS) (r e : Nat),
      env.rsaSeed = some r → env.serialEntropy = some e → env.createOk = true →
      ∃ c, (certgenRun (goParseIP parseV6) env fs ⟨""⟩).cert = some c ∧
        c.dnsNames = [""] ∧ c.ipAddresses = []) ∧
    (∀ (parseV6 : String → Option IPAddr) (env : CertGenEnv) (fs : FS) (r e : Nat),
      env.rsaSeed = some r → env.serialEntropy = some e → env.createOk = true →
      env.openCertOk = true → env.openKeyOk = true →
      (certgenRun (goParseIP parseV6) env fs ⟨""⟩).res = .ok) := by
  refine ⟨?_, ?_, ?_⟩
  · intro pip env fs conf
    cases hr : env.rsaSeed with
    | none => unfold certgenRun generateCert; simp [rsaGenerateKey, hr]
    | some r =>
      cases he : env.serialEntropy with
      | none => unfold certgenRun generateCert; simp [rsaGenerateKey, hr, he]
      | some e =>
        cases hco : env.createOk with
        | false =>
            unfold certgenRun generateCert
            simp [rsaGenerateKey, hr, he, createCertificate, hco]
        | true =>
            show (generateCert pip env fs [conf.Host]).res ≠ _
            rw [generateCert_res pip env fs [conf.Host] r e (by simp) hr he hco]
            cases env.openCertOk <;> cases env.openKeyOk <;> simp
  · intro parseV6 env fs r e hr he hco
    have h := generateCert_cert_eq (goParseIP parseV6) env fs [""] r e (by simp) hr he hco
    exact ⟨_, h, rfl, rfl⟩
  · intro parseV6 env fs r e hr he hco hoc hok
    show (generateCert (goParseIP parseV6) env fs [""]).res = _
    rw [generateCert_res (goParseIP parseV6) env fs [""] r e (by simp) hr he hco,
      hoc, hok]
    simp

/-- Witness for C9 at concrete inputs: with the configured host the empty
string and all oracles succeeding, the CLI path returns success, and the
missing-host error is indeed not produced. -/
theorem claim_C9_witness :
    (certgenRun (goParseIP fun _ => none)
        ⟨some 7, 1000, some 9, true, true, true, true, true, true⟩ ⟨[], []⟩
        ⟨""⟩).res ≠ .err "Missing required --host parameter" ∧
      (∃ c, (certgenRun (goParseIP fun _ => none)
            ⟨some 7, 1000, some 9, true, true, true, true, true, true⟩ ⟨[], []⟩
            ⟨""⟩).cert = some c ∧ c.dnsNames = [""] ∧ c.ipAddresses = []) ∧
      (certgenRun (goParseIP fun _ => none)
          ⟨some 7, 1000, some 9, true, true, true, true, true, true⟩ ⟨[], []⟩
          ⟨""⟩).res = .ok :=
  ⟨claim_C9_certgen_host_list.1 _ _ _ _,
    claim_C9_certgen_host_list.2.1 (fun _ => none) _ _ 7 9 rfl rfl rfl,
    claim_C9_certgen_host_list.2.2 (fun _ => none) _ _ 7 9 rfl rfl rfl rfl rfl⟩

/-- C10: every private key `generateCert` creates is an RSA key with the
4096-bit parameter, on which `pemBlockForKey` yields the PKCS#1
`RSA PRIVATE KEY` block (whatever the EC-marshal oracle says) and `publicKey`
yields the RSA public key; consequently no run of `generateCert` ever takes
the ECDSA fatal-exit branch (exit code 2) or the nil-block default branch. -/
theorem claim_C10_always_rsa :
    (∀ (pip : String → Option IPAddr) (env : CertGenEnv) (fs : FS)
        (hosts : List String) (k : Priv),
      (generateCert pip env fs hosts).key = some k →
      ∃ rk : RSAKey, k = .rsa rk ∧ rk.bits = 4096 ∧
        pemBlockForKey true k = .block ⟨"RSA PRIVATE KEY", .pkcs1 rk⟩ ∧
        pemBlockForKey false k = .block ⟨"RSA PRIVATE KEY", .pkcs1 rk⟩ ∧
        publicKey k = some (.rsa 4096 rk.seed)) ∧
    (∀ (pip : String → Option IPAddr) (env : CertGenEnv) (fs : FS)
        (hosts : List String),
      (generateCert pip env fs hosts).res ≠ .exited 2 ∧
        (generateCert pip env fs hosts).res ≠ .panicked) := by
  constructor
  · intro pip env fs hosts k hk
    obtain ⟨r, hr, hkk⟩ := generateCert_key_inv pip env fs hosts k hk
    subst hkk
    exact ⟨⟨4096, r⟩, rfl, rfl, rfl, rfl, rfl⟩
  · intro pip env fs hosts
    by_cases hne : hosts.length = 0
    · unfold generateCert; simp [hne]
    · cases hr : env.rsaSeed with
      | none => unfold generateCert; simp [rsaGenerateKey, hr, hne]
      | some r =>
        cases he : env.serialEntropy with
        | none => unfold generateCert; simp [rsaGenerateKey, hr, he, hne]
        | some e =>
          cases hco : env.createOk with
          | false =>
              unfold generateCert
              simp [rsaGenerateKey, hr, he, createCertificate, hco, hne]
          | true =>
              rw [generateCert_res pip env fs hosts r e hne hr he hco]
              cases env.openCertOk <;> cases env.openKeyOk <;> simp

/-- Witness for C10 at a concrete run: the generated key is the RSA-4096 key,
its PEM block is the PKCS#1 `RSA PRIVATE KEY` block, and the run neither
exits with code 2 nor panics. -/
theorem claim_C10_witness :
    (∃ rk : RSAKey, (Priv.rsa ⟨4096, 7⟩) = .rsa rk ∧ rk.bits = 4096 ∧
        pemBlockForKey true (.rsa ⟨4096, 7⟩) =
          .block ⟨"RSA PRIVATE KEY", .pkcs1 rk⟩ ∧
        pemBlockForKey false (.rsa ⟨4096, 7⟩) =
          .block ⟨"RSA PRIVATE KEY", .pkcs1 rk⟩ ∧
        publicKey (.rsa ⟨4096, 7⟩) = some (.rsa 4096 rk.seed)) ∧
      ((generateCert (goParseIP fun _ => none)
            ⟨some 7, 1000, some 9, true, true, true, true, true, true⟩ ⟨[], []⟩
            ["10.0.0.5"]).res ≠ .exited 2 ∧
        (generateCert (goParseIP fun _ => none)
            ⟨some 7, 1000, some 9, true, true, true, true, true, true⟩ ⟨[], []⟩
            ["10.0.0.5"]).res ≠ .panicked) :=
  ⟨claim_C10_always_rsa.1 (goParseIP fun _ => none)
      ⟨some 7, 1000, some 9, true, true, true, true, true, true⟩ ⟨[], []⟩
      ["10.0.0.5"] (.rsa ⟨4096, 7⟩) (by decide),
    claim_C10_always_rsa.2 (goParseIP fun _ => none)
      ⟨some 7, 1000, some 9, true, true, true, true, true, true⟩ ⟨[], []⟩
      ["10.0.0.5"]⟩

/-- C7: serializing the zero-valued `ManagerConfig` with the skeleton dump
(indented JSON marshaling, the `-dump-config` path) and parsing the result
back through the configuration loader (JSON unmarshaling) yields the
zero-valued `ManagerConfig` again. -/
theorem claim_C7_skeleton_round_trip :
    unmarshalConfig dumpSkeleton = some ⟨""⟩ := by decide

/-! ### Lifecycle proofs (C8) -/

/-- The initial lifecycle state satisfies the invariant. -/
theorem sysInv_init : SysInv sysInit := by
  refine ⟨rfl, fun h => absurd rfl h, fun h => absurd rfl h⟩

/-- The lifecycle invariant is preserved by every step. -/
theorem sysInv_step {s t : Sys} (hs : SysInv s) (h : SysStep s t) : SysInv t := by
  obtain ⟨h1, h2, h3⟩ := hs
  cases h with
  | deliver hd => exact ⟨h1, fun _ => rfl, h3⟩
  | recv hl hd =>
      refine ⟨?_, fun _ => hd, h3⟩
      rw [hl] at h1
      simpa using h1
  | shut hl =>
      rw [hl] at h1
      simp at h1
      refine ⟨by simp [h1], fun _ => h2 (by simp [hl]),
        fun _ => Nat.le_add_left 1 _⟩
  | runRet hm hsd => exact ⟨h1, h2, fun _ => hsd⟩
  | waitRet hm hsd => exact ⟨h1, h2, fun _ => hsd⟩

/-- Every state reachable from the initial lifecycle state satisfies the
invariant. -/
theorem sysInv_reach {s : Sys} (h : SysSteps sysInit s) : SysInv s := by
  induction h with
  | refl => exact sysInv_init
  | tail hab hbc ih => exact sysInv_step ih hbc

/-- C8: in the lifecycle model of `main` (signal-listener goroutine plus the
`Run`/`Wait` main goroutine over the fake collaborator), (1) along every
execution from the initial state the shutdown operation is invoked at most
once; (2) every step strictly decreases the ranking function, so every
execution is finite; and (3) every maximal (stuck) reachable state in which
the interrupt signal has been delivered — even before the run loop first
yields — has shutdown invoked exactly once, the listener finished, and the
wait operation returned (`mainT = stopped`): no deadlock. -/
theorem claim_C8_shutdown_once_no_deadlock :
    (∀ s : Sys, SysSteps sysInit s → s.shutdowns ≤ 1) ∧
      (∀ s t : Sys, SysStep s t → sysMeasure t < sysMeasure s) ∧
      (∀ s : Sys, SysSteps sysInit s → s.delivered = true → SysStuck s →
        s.shutdowns = 1 ∧ s.listener = .done ∧ s.mainT = .stopped) := by
  refine ⟨?_, ?_, ?_⟩
  · intro s hs
    have h1 := (sysInv_reach hs).1
    rw [h1]
    split <;> omega
  · intro s t h
    cases h with
    | deliver hd => simp [sysMeasure, hd]
    | recv hl hd => simp [sysMeasure, hl]
    | shut hl => simp [sysMeasure, hl]
    | runRet hm hsd => simp [sysMeasure, hm]
    | waitRet hm hsd => simp [sysMeasure, hm]
  · intro s hs hd hstuck
    obtain ⟨h1, h2, h3⟩ := sysInv_reach hs
    have hl : s.listener = .done := by
      cases hl : s.listener with
      | waitSig => exact absurd (SysStep.recv s hl hd) (hstuck _)
      | gotSig => exact absurd (SysStep.shut s hl) (hstuck _)
      | done => rfl
    rw [hl] at h1
    simp at h1
    have hm : s.mainT = .stopped := by
      cases hm : s.mainT with
      | running => exact absurd (SysStep.runRet s hm (by omega)) (hstuck _)
      | waiting => exact absurd (SysStep.waitRet s hm (by omega)) (hstuck _)
      | stopped => rfl
    exact ⟨h1, hl, hm⟩

/-- Witness for C8: a concrete complete execution — deliver the signal before
the run loop has moved, receive it, shut down, let `Run` then `Wait` return —
reaches the quiescent state with exactly one shutdown; and the first step
strictly decreases the ranking function. -/
theorem claim_C8_witness :
    sysMeasure ⟨.waitSig, .running, true, 0⟩ < sysMeasure sysInit ∧
      (⟨.done, .stopped, true, 1⟩ : Sys).shutdowns = 1 ∧
      (⟨.done, .stopped, true, 1⟩ : Sys).listener = .done ∧
      (⟨.done, .stopped, true, 1⟩ : Sys).mainT = .stopped := by
  have st1 : SysStep sysInit ⟨.waitSig, .running, true, 0⟩ :=
    SysStep.deliver sysInit rfl
  have st2 : SysStep ⟨.waitSig, .running, true, 0⟩ ⟨.gotSig, .running, true, 0⟩ :=
    SysStep.recv _ rfl rfl
  have st3 : SysStep ⟨.gotSig, .running, true, 0⟩ ⟨.done, .running, true, 1⟩ :=
    SysStep.shut _ rfl
  have st4 : SysStep ⟨.done, .running, true, 1⟩ ⟨.done, .waiting, true, 1⟩ :=
    SysStep.runRet _ rfl (by decide)
  have st5 : SysStep ⟨.done, .waiting, true, 1⟩ ⟨.done, .stopped, true, 1⟩ :=
    SysStep.waitRet _ rfl (by decide)
  have chain : SysSteps sysInit ⟨.done, .stopped, true, 1⟩ :=
    .tail (.tail (.tail (.tail (.tail (.refl sysInit) st1) st2) st3) st4) st5
  have hstuck : SysStuck ⟨.done, .stopped, true, 1⟩ := by
    intro t h
    cases h <;> simp_all
  refine ⟨claim_C8_shutdown_once_no_deadlock.2.1 _ _ st1, ?_⟩
  exact claim_C8_shutdown_once_no_deadlock.2.2 _ chain rfl hstuck

end Whids


